import Mathlib

/-!
Shallow embedding of `cursed-usb` (src/index.ts), a terminal USB monitor.

The program shells out to `lsusb`, trims and splits its stdout on newlines,
and maps every resulting line through
`line.match(/Bus (\d+) Device (\d+): ID ([0-9a-f:]+)\s*(.+)?/i)`:
a match populates the record from the capture groups (with `match[4] || "Unknown"`
for the description), a non-match produces a fallback record
`{ bus: "???", device: "???", id: "????:????", description: line }`.
On any failure of the external command the function returns a fixed
three-element mock list.  `filterDevices` keeps the records whose description,
upper-cased, contains `"DFU"` when `config.filterDFU` is set, and is the
identity otherwise.  `loadConfig` falls back to `{ filterDFU: false }` when the
config file is missing or reading/parsing throws.

Strings are modelled as `List Char` where character-level work happens.  The
JavaScript regex is embedded as an explicit matcher: for this particular
pattern, greedy matching with backtracking coincides with maximal-munch
matching, because every quantified class (`\d+`, `[0-9a-f:]+`, `\s*`) is
followed either by a literal character outside the class or by suffixes that
match the empty string, so backtracking a quantifier can never turn a failure
into a success.  `searchMatch` reproduces the unanchored leftmost-match search
of `String.prototype.match`.
-/

/-- JavaScript `\s` restricted to the ASCII range (space, tab, LF, VT, FF, CR),
which is what `lsusb` output can contain. -/
def isJsSpace (c : Char) : Bool :=
  c = ' ' || c = '\t' || c = '\n' || c = '\x0b' || c = '\x0c' || c = '\r'

/-- The character class `[0-9a-f:]` under the `/i` flag: hex digits of either
case, decimal digits, and the colon. -/
def isHexIdChar (c : Char) : Bool :=
  c.isDigit || ('a' ≤ c && c ≤ 'f') || ('A' ≤ c && c ≤ 'F') || c = ':'

/-- JavaScript `.` (no `s` flag): any character except a line terminator. -/
def isDotChar (c : Char) : Bool :=
  !(c = '\n' || c = '\r')

/-- Case-insensitive equality of characters, as the `/i` flag compares ASCII
letters. -/
def charCI (a b : Char) : Bool :=
  a.toLower = b.toLower

/-- Match a literal pattern case-insensitively at the head of `s`; on success
return the rest of `s`. -/
def matchCI : List Char → List Char → Option (List Char)
  | [], s => some s
  | _ :: _, [] => none
  | p :: ps, c :: cs => if charCI p c then matchCI ps cs else none

/-- The capture groups of `/Bus (\d+) Device (\d+): ID ([0-9a-f:]+)\s*(.+)?/i`:
group 1 (bus digits), group 2 (device digits), group 3 (the id token), and the
optional group 4 (trailing description). -/
structure MatchGroups where
  busG : List Char
  devG : List Char
  idG : List Char
  descG : Option (List Char)
deriving DecidableEq, Repr

/-- Attempt the regex at exactly this position (the anchored step of the
search).  Each `+` class takes its maximal run: the character following
`(\d+)` in the pattern is a space, and a space is not a digit, so no shorter
run can succeed where the maximal one fails; `[0-9a-f:]+` is followed by
`\s*(.+)?`, which matches every string, so its maximal run is final;
likewise `\s*` and `(.+)?`. -/
def matchAt (s : List Char) : Option MatchGroups :=
  match matchCI "Bus ".data s with
  | none => none
  | some r0 =>
    let bus := r0.takeWhile Char.isDigit
    if bus.isEmpty then none else
    match matchCI " Device ".data (r0.dropWhile Char.isDigit) with
    | none => none
    | some r1 =>
      let dev := r1.takeWhile Char.isDigit
      if dev.isEmpty then none else
      match matchCI ": ID ".data (r1.dropWhile Char.isDigit) with
      | none => none
      | some r2 =>
        let idTok := r2.takeWhile isHexIdChar
        if idTok.isEmpty then none else
        let r3 := (r2.dropWhile isHexIdChar).dropWhile isJsSpace
        let desc := r3.takeWhile isDotChar
        some { busG := bus, devG := dev, idG := idTok,
               descG := if desc.isEmpty then none else some desc }

/-- Unanchored leftmost search, as `line.match(regex)` performs: try the
pattern at every position from the left and return the first success. -/
def searchMatch : List Char → Option MatchGroups
  | [] => none
  | c :: t =>
    match matchAt (c :: t) with
    | some g => some g
    | none => searchMatch t

/-- The `USBDevice` interface of src/index.ts. -/
structure USBDevice where
  bus : String
  device : String
  id : String
  description : String
deriving DecidableEq, Repr

/-- The body of the `lines.map` callback in `getUSBDevices`: a matched line is
turned into a record from its capture groups (`match[4] || "Unknown"` — group 4
is nonempty whenever present, so `||` only replaces an absent group); an
unmatched line becomes the fallback record carrying the line verbatim. -/
def parseLine (line : List Char) : USBDevice :=
  match searchMatch line with
  | some g =>
    { bus := String.mk g.busG
      device := String.mk g.devG
      id := String.mk g.idG
      description :=
        match g.descG with
        | some d => String.mk d
        | none => "Unknown" }
  | none =>
    { bus := "???", device := "???", id := "????:????", description := String.mk line }

/-- JavaScript `String.prototype.trim`: drop leading and trailing whitespace of
the whole text. -/
def trimChars (l : List Char) : List Char :=
  ((l.dropWhile isJsSpace).reverse.dropWhile isJsSpace).reverse

/-- JavaScript `str.split("\n")`: `""` yields `[""]`, and every newline
separates two (possibly empty) fields. -/
def splitLines : List Char → List (List Char)
  | [] => [[]]
  | c :: t =>
    if c = '\n' then [] :: splitLines t
    else
      match splitLines t with
      | [] => [[c]]
      | l :: ls => (c :: l) :: ls

/-- The success path of `getUSBDevices`:
`stdout.trim().split("\n").map(parse callback)`. -/
def parseOutput (stdout : String) : List USBDevice :=
  (splitLines (trimChars stdout.data)).map parseLine

/-- The static mock list returned by the `catch` branch of `getUSBDevices`
when invoking `lsusb` fails. -/
def mockDevices : List USBDevice :=
  [ { bus := "001", device := "001", id := "1d6b:0002",
      description := "Linux Foundation 2.0 root hub" },
    { bus := "001", device := "002", id := "0483:df11",
      description := "STMicroelectronics STM Device in DFU Mode" },
    { bus := "002", device := "001", id := "1d6b:0003",
      description := "Linux Foundation 3.0 root hub" } ]

/-- `getUSBDevices`, with the subprocess outcome made explicit: `some stdout`
is a successful `execAsync("lsusb")`, `none` is any failure (command missing,
non-zero exit, I/O error), which the `catch` turns into the mock list. -/
def getUSBDevices : Option String → List USBDevice
  | some stdout => parseOutput stdout
  | none => mockDevices

/-- The `Config` interface of src/index.ts. -/
structure Config where
  filterDFU : Bool
deriving DecidableEq, Repr

/-- The default configuration returned at the end of `loadConfig`. -/
def defaultConfig : Config :=
  { filterDFU := false }

/-- `loadConfig`, with the file-system interaction made explicit:
`fileExists` is `fs.existsSync(CONFIG_FILE)`, and `readParse` is the outcome of
`JSON.parse(fs.readFileSync(...))` — `Except.error` when reading or parsing
throws (caught and ignored), `Except.ok c` when it yields a configuration. -/
def loadConfig (fileExists : Bool) (readParse : Except Unit Config) : Config :=
  if fileExists then
    match readParse with
    | Except.ok c => c
    | Except.error _ => defaultConfig
  else defaultConfig

/-- Is "DFU" a (contiguous) substring at the head? -/
def startsWithChars : List Char → List Char → Bool
  | [], _ => true
  | _ :: _, [] => false
  | a :: as, b :: bs => a = b && startsWithChars as bs

/-- `hay` contains `needle` as a contiguous substring (JavaScript
`String.prototype.includes`). -/
def hasSub (needle : List Char) : List Char → Bool
  | [] => needle.isEmpty
  | c :: t => startsWithChars needle (c :: t) || hasSub needle t

/-- `desc.toUpperCase().includes("DFU")`, the predicate of the `filter`
callback in `filterDevices`. -/
def descHasDFU (desc : String) : Bool :=
  hasSub "DFU".data (desc.data.map Char.toUpper)

/-- The device kind of the specification: derived, not stored — the code
classifies by the same substring test it filters with. -/
inductive Kind where
  | Normal
  | FirmwareMode
deriving DecidableEq, Repr

/-- The `DeviceClassifier` of the specification, as realised by the code's
single indicator test. -/
def classify (desc : String) : Kind :=
  if descHasDFU desc then Kind.FirmwareMode else Kind.Normal

/-- `filterDevices` of src/index.ts. -/
def filterDevices (devices : List USBDevice) (config : Config) : List USBDevice :=
  if config.filterDFU then
    devices.filter (fun dev => descHasDFU dev.description)
  else devices

/-- JavaScript `String.prototype.padEnd(n)` with spaces. -/
def padEndStr (s : String) (n : Nat) : String :=
  s ++ String.mk (List.replicate (n - s.length) ' ')

/-- `formatDeviceList` of src/index.ts: a fixed header, then one row per
device (`"No devices found"` when empty), joined with newlines.  This simple
variant pads but never truncates. -/
def formatDeviceList (devices : List USBDevice) : String :=
  let header :=
    padEndStr "Bus" 6 ++ " " ++ padEndStr "Device" 8 ++ " " ++ padEndStr "ID" 12
      ++ " Description"
  let body :=
    if devices.length = 0 then ["No devices found"]
    else devices.map (fun dev =>
      padEndStr dev.bus 6 ++ " " ++ padEndStr dev.device 8 ++ " "
        ++ padEndStr dev.id 12 ++ " " ++ dev.description)
  String.intercalate "\n" (header :: body)

/-- Modelled from the spec: the styled variant's `RenderStateBuilder` column
allocation is not part of src/index.ts (the simple `formatDeviceList` there
never truncates); spec §4.5 gives the name column all remaining width down to
a floor minimum, `max(floor, availableWidth − fixedColumnsWidth − separators)`. -/
def nameColumnWidth (floorW availableWidth fixedColumnsWidth separators : Nat) : Nat :=
  max floorW (availableWidth - (fixedColumnsWidth + separators))

/-- Modelled from the spec: the styled variant's name-field rendering is not
part of src/index.ts; spec §4.5 truncates a description exceeding the computed
width to `width − 1` characters plus a single ellipsis marker, and right-pads
a description at or under the width. -/
def renderName (width : Nat) (desc : String) : String :=
  if width < desc.length then String.mk (desc.data.take (width - 1) ++ ['…'])
  else String.mk (desc.data ++ List.replicate (width - desc.data.length) ' ')

/-- The claim's own count of non-blank lines (blank after trimming
whitespace), used to compare the parser's record count against the words of
the specification. -/
def nonBlankLineCountSpec (s : String) : Nat :=
  ((splitLines s.data).filter (fun l => !(trimChars l).isEmpty)).length

/-! ## Helper lemmas -/

/-- The code's filter predicate agrees with the derived classifier. -/
theorem classify_eq_firmware_iff (desc : String) :
    classify desc = Kind.FirmwareMode ↔ descHasDFU desc = true := by
  unfold classify
  split <;> simp_all

/-! ## Claims -/

/-- C1 counterexample: on the input `"a\n\nb"` the parser returns three
records (the interior blank line is mapped to a fallback record), while the
input has only two non-blank lines, so the record count does not equal the
non-blank line count. -/
theorem record_count_nonblank_cex :
    (parseOutput "a\n\nb").length = 3 ∧ nonBlankLineCountSpec "a\n\nb" = 2 := by
  decide

/-- C1 (amended): the parser produces exactly one record per line of the
whitespace-trimmed output text — the trim applies to the whole text, so blank
lines at the edges are dropped, but each interior blank line also produces one
record (a fallback record with empty description); the record count equals the
line count of the trimmed text. -/
theorem record_count_eq_trimmed_lines (s : String) :
    (parseOutput s).length = (splitLines (trimChars s.data)).length ∧
    parseLine [] =
      { bus := "???", device := "???", id := "????:????", description := "" } := by
  constructor
  · simp [parseOutput]
  · decide

/-- C1 witness: the amended count law evaluated on a concrete input. -/
theorem record_count_eq_trimmed_lines_witness :
    (parseOutput "a\n\nb").length = (splitLines (trimChars ("a\n\nb").data)).length ∧
    parseLine [] =
      { bus := "???", device := "???", id := "????:????", description := "" } :=
  record_count_eq_trimmed_lines "a\n\nb"

/-- C2: every input line on which the regex search fails yields exactly the
fallback record: sentinel bus and device `"???"`, sentinel id `"????:????"`,
and the entire original line, verbatim, as the description. -/
theorem unmatched_line_fallback (line : List Char) (h : searchMatch line = none) :
    parseLine line =
      { bus := "???", device := "???", id := "????:????",
        description := String.mk line } := by
  simp [parseLine, h]

/-- C2 witness: the line `"garbage text with no structure"` does not match and
yields the fallback record with that exact string as description. -/
theorem unmatched_line_fallback_witness :
    parseLine ("garbage text with no structure").data =
      { bus := "???", device := "???", id := "????:????",
        description := "garbage text with no structure" } :=
  unmatched_line_fallback ("garbage text with no structure").data (by decide)

/-- C3: every input line on which the regex search succeeds yields a record
whose bus, device and id come verbatim from the capture groups, and whose
description is the captured trailing text, defaulting to `"Unknown"` when the
optional fourth group is absent (which is exactly when the trailing text is
missing or empty). -/
theorem matched_line_fields (line : List Char) (g : MatchGroups)
    (h : searchMatch line = some g) :
    parseLine line =
      { bus := String.mk g.busG, device := String.mk g.devG, id := String.mk g.idG,
        description := (g.descG.map String.mk).getD "Unknown" } := by
  cases g with
  | mk b d i o => cases o <;> simp [parseLine, h]

/-- C3 witness: the scenario line from the specification parses to bus
`"001"`, device `"002"`, id `"0483:df11"` and description
`"STM Device in DFU Mode"`. -/
theorem matched_line_fields_witness :
    parseLine ("Bus 001 Device 002: ID 0483:df11 STM Device in DFU Mode").data =
      { bus := "001", device := "002", id := "0483:df11",
        description := "STM Device in DFU Mode" } :=
  matched_line_fields _
    { busG := "001".data, devG := "002".data, idG := "0483:df11".data,
      descG := some ("STM Device in DFU Mode").data }
    (by decide)

/-- C4: with `filterDFU = true`, `filterDevices` returns exactly the records
whose description case-insensitively contains `"dfu"` (equivalently, whose
derived kind is `FirmwareMode`), the result is a sublist of the input (hence
relative order is preserved), and the classification is case-insensitive:
`"DFU"`, `"dfu"` and `"Dfu"` all classify as `FirmwareMode`. -/
theorem filter_on_firmware_only (devices : List USBDevice) (config : Config)
    (h : config.filterDFU = true) :
    (∀ d, d ∈ filterDevices devices config ↔
      d ∈ devices ∧ classify d.description = Kind.FirmwareMode) ∧
    List.Sublist (filterDevices devices config) devices ∧
    classify "DFU" = Kind.FirmwareMode ∧
    classify "dfu" = Kind.FirmwareMode ∧
    classify "Dfu" = Kind.FirmwareMode := by
  refine ⟨?_, ?_, by decide, by decide, by decide⟩
  · intro d
    simp [filterDevices, h, List.mem_filter, classify_eq_firmware_iff]
  · simp only [filterDevices, h, if_true]
    exact List.filter_sublist devices

/-- C4 witness: the firmware-only filter evaluated on the mock device list. -/
theorem filter_on_firmware_only_witness :
    (∀ d, d ∈ filterDevices mockDevices { filterDFU := true } ↔
      d ∈ mockDevices ∧ classify d.description = Kind.FirmwareMode) ∧
    List.Sublist (filterDevices mockDevices { filterDFU := true }) mockDevices ∧
    classify "DFU" = Kind.FirmwareMode ∧
    classify "dfu" = Kind.FirmwareMode ∧
    classify "Dfu" = Kind.FirmwareMode :=
  filter_on_firmware_only mockDevices { filterDFU := true } rfl

/-- C5: with `filterDFU = false`, `filterDevices` is the identity on the
device list — same records, same contents, same order. -/
theorem filter_off_identity (devices : List USBDevice) (config : Config)
    (h : config.filterDFU = false) :
    filterDevices devices config = devices := by
  simp [filterDevices, h]

/-- C5 witness: the identity evaluated on the mock device list. -/
theorem filter_off_identity_witness :
    filterDevices mockDevices { filterDFU := false } = mockDevices :=
  filter_off_identity mockDevices { filterDFU := false } rfl

/-- C6 counterexample: the regex is case-insensitive, so
`"Bus 001 Device 002: ID 0483:DF11 Widget"` matches with the uppercase id
stored verbatim — the stored id is `"0483:DF11"`, not the lowercased
`"0483:df11"` the claim requires. -/
theorem id_lowercase_cex :
    (parseLine ("Bus 001 Device 002: ID 0483:DF11 Widget").data).id = "0483:DF11" ∧
    (parseLine ("Bus 001 Device 002: ID 0483:DF11 Widget").data).id ≠ "0483:df11" := by
  decide

/-- C6 (amended): for every successfully matched input line the stored id
field equals the matched id token verbatim, preserving its original case
(uppercase hexadecimal stays uppercase); lines that fail to match produce the
fallback record, whose id is the sentinel `"????:????"`. -/
theorem id_verbatim_from_match (line : List Char) (g : MatchGroups)
    (h : searchMatch line = some g) :
    (parseLine line).id = String.mk g.idG := by
  simp [parseLine, h]

/-- C6 witness: the uppercase id `"0483:DF11"` is stored exactly as matched. -/
theorem id_verbatim_from_match_witness :
    (parseLine ("Bus 001 Device 002: ID 0483:DF11 Widget").data).id =
      String.mk ("0483:DF11").data :=
  id_verbatim_from_match _
    { busG := "001".data, devG := "002".data, idG := "0483:DF11".data,
      descG := some ("Widget").data }
    (by decide)

/-- C7 (spec-modelled): the name column receives at least the floor width;
a description longer than the allocated width renders to a field of exactly
the column width ending in a single ellipsis marker; a description at or
under the width is unchanged except for right-padding with spaces. -/
theorem truncation_law (floorW aw fw sep : Nat) (desc : String) (hf : 0 < floorW) :
    floorW ≤ nameColumnWidth floorW aw fw sep ∧
    (nameColumnWidth floorW aw fw sep < desc.length →
      (renderName (nameColumnWidth floorW aw fw sep) desc).length =
          nameColumnWidth floorW aw fw sep ∧
      (renderName (nameColumnWidth floorW aw fw sep) desc).data.getLast? = some '…') ∧
    (desc.length ≤ nameColumnWidth floorW aw fw sep →
      renderName (nameColumnWidth floorW aw fw sep) desc =
        desc ++ String.mk
          (List.replicate (nameColumnWidth floorW aw fw sep - desc.length) ' ')) := by
  have hfloor : floorW ≤ nameColumnWidth floorW aw fw sep := le_max_left _ _
  obtain ⟨w, hw⟩ : ∃ w, nameColumnWidth floorW aw fw sep = w := ⟨_, rfl⟩
  rw [hw] at hfloor ⊢
  refine ⟨hfloor, ?_, ?_⟩
  · intro hlt
    have hone : 1 ≤ w := hf.trans_le hfloor
    have hlen : w < desc.data.length := hlt
    have hren : renderName w desc =
        String.mk (desc.data.take (w - 1) ++ ['…']) := by
      simp [renderName, hlt]
    constructor
    · rw [hren]
      show (desc.data.take (w - 1) ++ ['…']).length = w
      simp only [List.length_append, List.length_take, List.length_singleton]
      rw [Nat.min_eq_left (by omega)]
      omega
    · rw [hren]
      show (desc.data.take (w - 1) ++ ['…']).getLast? = some '…'
      rw [List.getLast?_append_cons]
      simp
  · intro hle
    have hnlt : ¬ (w < desc.length) := not_lt.mpr hle
    have hren : renderName w desc =
        String.mk (desc.data ++ List.replicate (w - desc.data.length) ' ') := by
      simp [renderName, hnlt]
    rw [hren]
    cases desc with
    | mk l => rfl

/-- C7 witness: with a floor of 30, an 80-column terminal, 14 columns of
fixed fields and 3 separators, the name column is 63 wide, and a 70-character
description is truncated to exactly 63 characters ending in the ellipsis. -/
theorem truncation_law_witness :
    30 ≤ nameColumnWidth 30 80 14 3 ∧
    (nameColumnWidth 30 80 14 3 < (String.mk (List.replicate 70 'a')).length →
      (renderName (nameColumnWidth 30 80 14 3)
          (String.mk (List.replicate 70 'a'))).length = nameColumnWidth 30 80 14 3 ∧
      (renderName (nameColumnWidth 30 80 14 3)
          (String.mk (List.replicate 70 'a'))).data.getLast? = some '…') ∧
    ((String.mk (List.replicate 70 'a')).length ≤ nameColumnWidth 30 80 14 3 →
      renderName (nameColumnWidth 30 80 14 3) (String.mk (List.replicate 70 'a')) =
        String.mk (List.replicate 70 'a') ++ String.mk
          (List.replicate
            (nameColumnWidth 30 80 14 3 - (String.mk (List.replicate 70 'a')).length)
            ' ')) :=
  truncation_law 30 80 14 3 (String.mk (List.replicate 70 'a')) (by decide)

/-- C8: when invoking the enumeration command fails (the `Option.none`
outcome), `getUSBDevices` returns the fixed three-record mock list — including
the STM DFU example — rather than propagating the failure. -/
theorem enum_failure_mock_list :
    getUSBDevices none =
      [ { bus := "001", device := "001", id := "1d6b:0002",
          description := "Linux Foundation 2.0 root hub" },
        { bus := "001", device := "002", id := "0483:df11",
          description := "STMicroelectronics STM Device in DFU Mode" },
        { bus := "002", device := "001", id := "1d6b:0003",
          description := "Linux Foundation 3.0 root hub" } ] ∧
    (getUSBDevices none).length = 3 :=
  ⟨rfl, rfl⟩

/-- C9: a missing configuration file (whatever the read would have produced)
and a throwing read/parse both make `loadConfig` return the default
configuration `{ filterDFU := false }`. -/
theorem load_config_failure_default (readParse : Except Unit Config) :
    loadConfig false readParse = { filterDFU := false } ∧
    loadConfig true (Except.error ()) = { filterDFU := false } :=
  ⟨rfl, rfl⟩

/-- C9 witness: the fallback evaluated at a concrete read outcome. -/
theorem load_config_failure_default_witness :
    loadConfig false (Except.ok { filterDFU := true }) = { filterDFU := false } ∧
    loadConfig true (Except.error ()) = { filterDFU := false } :=
  load_config_failure_default (Except.ok { filterDFU := true })

/-- C10: when the enumeration command succeeds with empty or whitespace-only
output, `getUSBDevices` returns exactly one fallback record with an empty
description — not an empty list — because the trimmed empty text still splits
into a single empty line. -/
theorem empty_output_single_fallback (s : String) (h : trimChars s.data = []) :
    getUSBDevices (some s) =
      [{ bus := "???", device := "???", id := "????:????", description := "" }] := by
  show parseOutput s = _
  unfold parseOutput
  rw [h]
  decide

/-- C10 witness: whitespace-only output yields the single empty-description
fallback record. -/
theorem empty_output_single_fallback_witness :
    getUSBDevices (some "   ") =
      [{ bus := "???", device := "???", id := "????:????", description := "" }] :=
  empty_output_single_fallback "   " (by decide)
